import Mathlib

/- Verification development for the glx-gl-cuda demo.
   Shallow embedding of src/main.cu (host frame loop, CUDA kernel, error paths)
   and src/fragment.glsl, with floats idealized as real numbers and machine
   integers as naturals (modulo 2^64 where the width matters). -/

/-- Nominal frame rate: `#define FPS 30` in src/main.cu (line 16). -/
def FPS : Nat := 30

/-- Element count of the shared reds buffer used by the host and the CUDA
    kernel: `#define NREDS 1024` in src/main.cu (line 18). -/
def NREDS : Nat := 1024

/-- Element count the fragment stage assumes for its index derivation:
    `#define NREDS 65536` in src/fragment.glsl (line 3). -/
def fragment_NREDS : Nat := 65536

/- ## Shader source assembly (compile_shader, src/main.cu lines 216-238) -/

/-- Semantics of glShaderSource: the source text attached to the shader object
    is the concatenation of the first `count` strings of the supplied array. -/
def glShaderSourceText (count : Nat) (srcs : List String) : String :=
  String.join (srcs.take count)

/-- Source text that compile_shader hands to the stage compiler: it reads the
    stage's own source and util.glsl into a two-element array
    (shader_srcs[0] = stage source, shader_srcs[1] = util source), but then
    calls `glShaderSource(shader, 1, shader_srcs, shader_lens)` with count 1
    (src/main.cu line 234). -/
def compile_shader_text (stage_src util_src : String) : String :=
  glShaderSourceText 1 [stage_src, util_src]

/- ## The CUDA field kernel (calculate_reds_kernel, src/main.cu lines 432-441)
   and its launch (calculate_reds, line 457). -/

/-- Global work-item index: `blockIdx.x * blockDim.x + threadIdx.x`
    (src/main.cu line 436). -/
def globalThreadId (blockIdx blockDim threadIdx : Nat) : Nat :=
  blockIdx * blockDim + threadIdx

/-- Guarded write target of one work-item of calculate_reds_kernel: the thread
    stores into element `thread_id` exactly when `thread_id < NREDS`
    (src/main.cu line 437); otherwise it performs no write at all. -/
def kernelWriteIndex (thread_id : Nat) : Option Nat :=
  if thread_id < NREDS then some thread_id else none

/-- Value a writing work-item stores, floats idealized as reals:
    `theta = sinf(float(time) / 8.0) + float(thread_id) / 64.0` and
    `red = pow(sinf(theta), 2)` (src/main.cu lines 438-439). -/
noncomputable def redValue (time : ℝ) (thread_id : Nat) : ℝ :=
  Real.sin (Real.sin (time / 8) + (thread_id : ℝ) / 64) ^ 2

/-- Indices written by a full launch of `grid` blocks of `blockDim` threads:
    every (blockIdx, threadIdx) pair runs the guarded kernel body once. -/
def launchWriteIndices (grid blockDim : Nat) : List Nat :=
  ((List.range grid).flatMap fun b =>
      (List.range blockDim).map fun th => globalThreadId b blockDim th).filterMap
    kernelWriteIndex

/-- Indices written by the launch decomposition actually used,
    `calculate_reds_kernel<<<16, NREDS / 16>>>` (src/main.cu line 457). -/
def dispatchIndices : List Nat := launchWriteIndices 16 (NREDS / 16)

/-- Contents of buffer element `i` after one dispatch at frame time `t`:
    defined (with the kernel's value) exactly when some work-item wrote it,
    undefined (`none`) when no work-item reached it. -/
noncomputable def dispatchResult (t : ℝ) (i : Nat) : Option ℝ :=
  if i ∈ dispatchIndices then some (redValue t i) else none

/- ## Geometry phases (main, src/main.cu lines 556-589) -/

/-- Triangle index triples of the four animation phases, in loop order
    (src/main.cu lines 562-567). -/
def triangle_indices : Nat → List Nat
  | 0 => [0, 1, 2]
  | 1 => [1, 2, 3]
  | 2 => [2, 3, 0]
  | 3 => [3, 0, 1]
  | _ => []

/-- Steady-state strip uploaded after the four triangle phases
    (src/main.cu line 581). -/
def quad_indices : List Nat := [0, 1, 3, 2]

/-- Contents of the element buffer at tick `t`. The main loop
    (src/main.cu lines 568-577) uploads triangle_indices[i] and then runs FPS
    ticks for each i = 0..3, so a tick t < 4 * FPS falls in phase t / FPS;
    afterwards (lines 581-589) quad_indices is uploaded once and kept for every
    later tick. -/
def elementsAtTick (t : Nat) : List Nat :=
  if t < 4 * FPS then triangle_indices (t / FPS) else quad_indices

/- ## Per-tick action trace (calculate_reds, draw_frame and the loop bodies,
   src/main.cu lines 443-463, 478-500, 568-589) -/

/-- Observable actions of one iteration of the frame loop. -/
inductive TickAct : Type
  | checkInput
  | mapBuffer
  | getPointer
  | dispatch
  | unmapBuffer
  | draw
  | incrCounter
  | sleep
  deriving DecidableEq, Repr

/-- Call sequence of calculate_reds (src/main.cu lines 443-463):
    cudaGraphicsMapResources, cudaGraphicsResourceGetMappedPointer, the kernel
    launch, cudaGraphicsUnmapResources. -/
def calculate_reds_actions : List TickAct :=
  [TickAct.mapBuffer, TickAct.getPointer, TickAct.dispatch, TickAct.unmapBuffer]

/-- Body of one tick of the frame loop (src/main.cu lines 570-575 and
    583-588): check_input; calculate_reds; draw_frame; time++; usleep. -/
def tick_actions : List TickAct :=
  TickAct.checkInput ::
    calculate_reds_actions ++ [TickAct.draw, TickAct.incrCounter, TickAct.sleep]

/- ## Mapped-size invariant check (calculate_reds, src/main.cu line 455) -/

/-- Byte size of `struct reds_buffer` (src/main.cu lines 49-55): NREDS
    elements, each one GLfloat `red` plus GLfloat `unused[3]`, i.e. four
    4-byte floats per element with no padding. -/
def sizeof_reds_buffer : Nat := NREDS * (4 + 3 * 4)

/-- Outcome of the defensive size check: either the mapping proceeds or the
    process aborts via the failed assert. -/
inductive MapCheckOutcome : Type
  | proceed
  | fatalAbort (failedCheck : String)
  deriving DecidableEq, Repr

/-- Size check performed by calculate_reds after fetching the mapped pointer:
    `assert(devptr_size == sizeof(struct reds_buffer))` (src/main.cu line 455)
    aborts the process, naming the failing expression, when the reported size
    differs from the expected one; otherwise execution continues. -/
def map_size_check (devptr_size : Nat) : MapCheckOutcome :=
  if devptr_size = sizeof_reds_buffer then MapCheckOutcome.proceed
  else MapCheckOutcome.fatalAbort "devptr_size == sizeof(struct reds_buffer)"

/- ## Termination input check (is_quit_event / check_input,
   src/main.cu lines 502-520) -/

/-- X events as far as the quit check inspects them: a key press carries
    whether its keysym is a pure modifier key (IsModifierKey). -/
inductive XEv : Type
  | keyPress (isModifier : Bool)
  | buttonPress
  | other
  deriving DecidableEq, Repr

/-- Quit predicate (src/main.cu lines 502-512): a KeyPress whose keysym is not
    a modifier key matches, any ButtonPress matches, every other event type
    does not. -/
def is_quit_event : XEv → Bool
  | XEv.keyPress m => !m
  | XEv.buttonPress => true
  | XEv.other => false

/-- check_input (src/main.cu lines 514-520): XCheckIfEvent scans the pending
    event queue for an event matching is_quit_event; when one is found the
    process exits with EXIT_SUCCESS = 0, otherwise nothing happens. -/
def check_input (pending : List XEv) : Option Nat :=
  if pending.any is_quit_event then some 0 else none

/-- One tick of the frame loop including its input check: when a quit event is
    pending the process exits with status 0 having performed only the input
    check; otherwise the full tick body runs. Returns the exit status (if any)
    paired with the actions performed during the tick. -/
def tick_run (pending : List XEv) : Option Nat × List TickAct :=
  match check_input pending with
  | some code => (some code, [TickAct.checkInput])
  | none => (none, tick_actions)

/- ## Shader compile status handling (compile_shader,
   src/main.cu lines 240-254) -/

/-- Result of compile_shader's status handling: a fatal process exit carrying
    the exit status and the reported message, or the shader handle together
    with an optionally reported (informational) diagnostic log. -/
inductive CompileOutcome : Type
  | fatalExit (status : Nat) (message : String)
  | success (shader : Nat) (reported : Option String)
  deriving DecidableEq, Repr

/-- Status handling of compile_shader (src/main.cu lines 240-254), abstracted
    over what the GL compiler reported: when GL_COMPILE_STATUS is false the
    file name and info log are printed and the process exits with
    EXIT_FAILURE = 1; otherwise, when the info log is non-empty it is printed
    as a message and the shader handle is returned; with an empty log the
    handle is returned silently. -/
def compile_shader_outcome (filename : String) (shader : Nat)
    (is_compiled : Bool) (log : String) : CompileOutcome :=
  if is_compiled = false then
    CompileOutcome.fatalExit 1 (filename ++ ": Shader compile error:\n" ++ log)
  else if log.length ≠ 0 then
    CompileOutcome.success shader
      (some (filename ++ ": Shader compile messages:\n" ++ log))
  else
    CompileOutcome.success shader none

/- ## Frame counter (main, src/main.cu lines 556-589) -/

/-- Modulus of the 64-bit frame counter `unsigned long long time`
    (src/main.cu line 557). -/
def U64_MOD : Nat := 2 ^ 64

/-- Frame counter after `n` completed ticks: it starts at 0 (line 557) and
    each tick executes `time++` after draw_frame and before usleep
    (src/main.cu lines 572-575 and 585-588), with 64-bit wraparound. -/
def counterAfter : Nat → Nat
  | 0 => 0
  | n + 1 => (counterAfter n + 1) % U64_MOD

/- ## Theorems -/

set_option maxRecDepth 8000 in
theorem dispatchIndices_eq_range : dispatchIndices = List.range NREDS := by decide

theorem sizeof_reds_buffer_eq : sizeof_reds_buffer = NREDS * 16 := by decide

theorem counterAfter_eq (n : Nat) : counterAfter n = n % U64_MOD := by
  induction n with
  | zero => rfl
  | succ n ih =>
      have hM : U64_MOD = 18446744073709551616 := by norm_num [U64_MOD]
      rw [counterAfter, ih, hM]
      omega

/-- C1: the claim states that the element count used by the compute kernel and
    shared buffer and the element count used by the fragment stage's index
    derivation are both the single constant 1024. Evaluating the two constants
    of the code shows the kernel/buffer side uses 1024 while the fragment
    stage uses 65536: the two counts disagree, refuting the claimed agreement
    (the fragment stage derives indices up to 65535 against a 1024-element
    buffer). -/
theorem C1_element_count_mismatch :
    NREDS = 1024 ∧ fragment_NREDS = 65536 ∧ NREDS ≠ fragment_NREDS := by
  decide

/-- C2: the claim states the source text handed to each stage compiler is the
    stage source concatenated with the shared utility source. Evaluating
    compile_shader's source assembly at stage source "S" and utility source
    "U" shows only "S" reaches the compiler: glShaderSource is called with
    count 1, so the utility source read into the second array slot is
    dropped. -/
theorem C2_util_source_dropped :
    compile_shader_text "S" "U" = "S" ∧
    compile_shader_text "S" "U" ≠ "S" ++ "U" := by
  constructor
  · rfl
  · decide

/-- C3: for every tick t counted from 0, the active index buffer is {0,1,2}
    on [0, FPS), {1,2,3} on [FPS, 2*FPS), {2,3,0} on [2*FPS, 3*FPS), {3,0,1}
    on [3*FPS, 4*FPS) and {0,1,3,2} for every tick at or beyond 4*FPS (with
    FPS = 30), and every index value is a valid offset into the 4-vertex
    array. -/
theorem C3_phase_sequencing (t : Nat) :
    elementsAtTick t =
      (if t < FPS then [0, 1, 2]
       else if t < 2 * FPS then [1, 2, 3]
       else if t < 3 * FPS then [2, 3, 0]
       else if t < 4 * FPS then [3, 0, 1]
       else [0, 1, 3, 2]) ∧
    ∀ v ∈ elementsAtTick t, v < 4 := by
  rcases Nat.lt_or_ge t 120 with h | h
  · interval_cases t <;> decide
  · have h30 : ¬ t < FPS := by unfold FPS; omega
    have h60 : ¬ t < 2 * FPS := by unfold FPS; omega
    have h120 : ¬ t < 4 * FPS := by unfold FPS; omega
    have h90 : ¬ t < 3 * FPS := by unfold FPS; omega
    simp only [elementsAtTick, h30, h60, h90, h120, if_false, if_neg,
      not_false_eq_true]
    exact ⟨rfl, by decide⟩

/-- C4: within every tick the map of the shared buffer strictly precedes the
    kernel dispatch, the unmap strictly follows the dispatch and strictly
    precedes the draw of the same tick; the dispatch runs with exactly one map
    outstanding (compute-owned), the draw with none (graphics-owned), and no
    prefix of the tick ever has more than one map outstanding. -/
theorem C4_map_dispatch_unmap_draw_order (n : Nat)
    (hn : n ≤ tick_actions.length) :
    tick_actions.indexOf TickAct.mapBuffer <
        tick_actions.indexOf TickAct.dispatch ∧
    tick_actions.indexOf TickAct.dispatch <
        tick_actions.indexOf TickAct.unmapBuffer ∧
    tick_actions.indexOf TickAct.unmapBuffer <
        tick_actions.indexOf TickAct.draw ∧
    (tick_actions.take (tick_actions.indexOf TickAct.dispatch)).count
        TickAct.mapBuffer =
      (tick_actions.take (tick_actions.indexOf TickAct.dispatch)).count
        TickAct.unmapBuffer + 1 ∧
    (tick_actions.take (tick_actions.indexOf TickAct.draw)).count
        TickAct.mapBuffer =
      (tick_actions.take (tick_actions.indexOf TickAct.draw)).count
        TickAct.unmapBuffer ∧
    (tick_actions.take n).count TickAct.unmapBuffer ≤
      (tick_actions.take n).count TickAct.mapBuffer ∧
    (tick_actions.take n).count TickAct.mapBuffer ≤
      (tick_actions.take n).count TickAct.unmapBuffer + 1 := by
  have h8 : n ≤ 8 := by
    simpa [tick_actions, calculate_reds_actions] using hn
  interval_cases n <;> decide

/-- Witness for C4 at the concrete prefix length 2. -/
theorem C4_map_dispatch_unmap_draw_order_witness :
    (tick_actions.take 2).count TickAct.unmapBuffer ≤
      (tick_actions.take 2).count TickAct.mapBuffer :=
  (C4_map_dispatch_unmap_draw_order 2 (by decide)).2.2.2.2.2.1

/-- C5: for every frame time t and every element index i < NREDS, one dispatch
    of the field kernel (launched as 16 blocks of NREDS / 16 work-items) leaves
    element i set to sin(theta)^2 with theta = sin(t / 8) + i / 64 — a function
    of (i, t) only; at t = 0 element 0 equals 0; and the launch decomposition
    writes exactly the indices 0..NREDS-1, leaving no trailing element
    unset. -/
theorem C5_field_kernel_values (t : ℝ) (i : Nat) (hi : i < NREDS) :
    dispatchResult t i =
      some (Real.sin (Real.sin (t / 8) + (i : ℝ) / 64) ^ 2) ∧
    dispatchResult 0 0 = some 0 ∧
    dispatchIndices = List.range NREDS := by
  have hmem : i ∈ dispatchIndices := by
    rw [dispatchIndices_eq_range]
    exact List.mem_range.mpr hi
  have h0 : (0 : Nat) ∈ dispatchIndices := by
    rw [dispatchIndices_eq_range]
    exact List.mem_range.mpr (by norm_num [NREDS])
  refine ⟨?_, ?_, dispatchIndices_eq_range⟩
  · rw [dispatchResult, if_pos hmem]
    rfl
  · rw [dispatchResult, if_pos h0]
    norm_num [redValue, Real.sin_zero]

/-- Witness for C5 at t = 0, i = 0. -/
theorem C5_field_kernel_values_witness : dispatchResult 0 0 = some 0 :=
  (C5_field_kernel_values 0 0 (by decide)).2.1

/-- C6: the mapped-size invariant check follows the fatal-error policy: a
    reported size equal to the expected buffer size (capacity NREDS times the
    16-byte element stride, i.e. sizeof(struct reds_buffer)) proceeds with no
    error, and any other size aborts the process via the failed assert, whose
    message names the failing check. -/
theorem C6_map_size_fatal_policy (s : Nat) :
    (s = NREDS * 16 → map_size_check s = MapCheckOutcome.proceed) ∧
    (s ≠ NREDS * 16 → map_size_check s =
      MapCheckOutcome.fatalAbort "devptr_size == sizeof(struct reds_buffer)") := by
  unfold map_size_check
  rw [sizeof_reds_buffer_eq]
  constructor
  · intro h
    rw [if_pos h]
  · intro h
    rw [if_neg h]

/-- Witness for C6 at the matching size 16384 and the mismatched size 0. -/
theorem C6_map_size_fatal_policy_witness :
    map_size_check 16384 = MapCheckOutcome.proceed ∧
    map_size_check 0 =
      MapCheckOutcome.fatalAbort "devptr_size == sizeof(struct reds_buffer)" :=
  ⟨(C6_map_size_fatal_policy 16384).1 (by decide),
   (C6_map_size_fatal_policy 0).2 (by decide)⟩

/-- C7: for every tick, if a key-press of a non-modifier key or any
    pointer-button press is pending at the start of the tick, the termination
    check exits the process with status 0 (success) and the tick performs no
    map, no kernel dispatch and no draw; if no such event is pending, the tick
    proceeds with the full tick body and the check changes nothing. -/
theorem C7_quit_check (pending : List XEv) :
    ((∃ e ∈ pending, is_quit_event e) →
      tick_run pending = (some 0, [TickAct.checkInput]) ∧
      TickAct.mapBuffer ∉ (tick_run pending).2 ∧
      TickAct.dispatch ∉ (tick_run pending).2 ∧
      TickAct.draw ∉ (tick_run pending).2) ∧
    ((∀ e ∈ pending, ¬ is_quit_event e) →
      tick_run pending = (none, tick_actions)) := by
  constructor
  · rintro ⟨e, he, hq⟩
    have hany : pending.any is_quit_event = true :=
      List.any_eq_true.mpr ⟨e, he, hq⟩
    refine ⟨?_, ?_, ?_, ?_⟩ <;> simp [tick_run, check_input, hany]
  · intro hall
    have hany : pending.any is_quit_event = false := by
      rw [List.any_eq_false]
      exact hall
    simp [tick_run, check_input, hany]

/-- Witness for C7 with a single pending pointer-button press. -/
theorem C7_quit_check_witness :
    tick_run [XEv.buttonPress] = (some 0, [TickAct.checkInput]) :=
  ((C7_quit_check [XEv.buttonPress]).1
    ⟨XEv.buttonPress, by decide, by decide⟩).1

/-- C8: shader stage compilation follows the fatal/diagnostic split: when
    compilation fails, the reported message names the source file and carries
    the compiler diagnostic and the process exits with the non-zero status 1;
    when compilation succeeds with a non-empty diagnostic log, the log is
    reported but the stage handle is returned normally; when it succeeds with
    an empty log, the handle is returned with nothing reported. -/
theorem C8_compile_fatal_diagnostic_split (filename : String) (shader : Nat)
    (c : Bool) (log : String) :
    (c = false →
      compile_shader_outcome filename shader c log =
        CompileOutcome.fatalExit 1
          (filename ++ ": Shader compile error:\n" ++ log) ∧ (1 : Nat) ≠ 0) ∧
    (c = true → log.length ≠ 0 →
      compile_shader_outcome filename shader c log =
        CompileOutcome.success shader
          (some (filename ++ ": Shader compile messages:\n" ++ log))) ∧
    (c = true → log.length = 0 →
      compile_shader_outcome filename shader c log =
        CompileOutcome.success shader none) := by
  refine ⟨fun hc => ⟨?_, by omega⟩, fun hc hl => ?_, fun hc hl => ?_⟩
  · subst hc
    simp [compile_shader_outcome]
  · subst hc
    simp [compile_shader_outcome, hl]
  · subst hc
    simp [compile_shader_outcome, hl]

/-- Witness for C8: a failed compile of fragment.glsl with log "bad", a
    successful compile with the same non-empty log, and a successful compile
    with an empty log. -/
theorem C8_compile_fatal_diagnostic_split_witness :
    compile_shader_outcome "fragment.glsl" 7 false "bad" =
      CompileOutcome.fatalExit 1 "fragment.glsl: Shader compile error:\nbad" ∧
    compile_shader_outcome "fragment.glsl" 7 true "bad" =
      CompileOutcome.success 7
        (some "fragment.glsl: Shader compile messages:\nbad") ∧
    compile_shader_outcome "fragment.glsl" 7 true "" =
      CompileOutcome.success 7 none :=
  ⟨((C8_compile_fatal_diagnostic_split "fragment.glsl" 7 false "bad").1
      rfl).1,
   (C8_compile_fatal_diagnostic_split "fragment.glsl" 7 true "bad").2.1
      rfl (by decide),
   (C8_compile_fatal_diagnostic_split "fragment.glsl" 7 true "").2.2
      rfl rfl⟩

/-- C9 counterexample: the frame counter is a 64-bit unsigned integer, so it
    does not increase forever: after tick index 2^64 it has wrapped to 0,
    strictly below its value after tick index 2^64 - 1 — refuting "never
    resets or decreases across the whole run" as a statement about all
    ticks. -/
theorem C9_counter_wraps :
    counterAfter (2 ^ 64) < counterAfter (2 ^ 64 - 1) := by
  rw [counterAfter_eq, counterAfter_eq]
  norm_num [U64_MOD]

/-- C9 (amended): the frame counter starts at 0, is incremented exactly once
    per tick — the increment sits strictly after the draw and strictly before
    the sleep of the tick — and equals the tick index modulo 2^64; hence it
    never resets or decreases within any run of fewer than 2^64 ticks,
    including across the phase transitions into the steady quad phase. -/
theorem C9_counter_monotone (m n : Nat) (hmn : m ≤ n) (hn : n < 2 ^ 64) :
    counterAfter 0 = 0 ∧
    counterAfter (m + 1) = (counterAfter m + 1) % U64_MOD ∧
    counterAfter m ≤ counterAfter n ∧
    counterAfter n = n ∧
    tick_actions.indexOf TickAct.draw <
      tick_actions.indexOf TickAct.incrCounter ∧
    tick_actions.indexOf TickAct.incrCounter <
      tick_actions.indexOf TickAct.sleep := by
  have hM : U64_MOD = 18446744073709551616 := by norm_num [U64_MOD]
  have heqn : counterAfter n = n := by
    rw [counterAfter_eq, hM]
    omega
  refine ⟨rfl, rfl, ?_, heqn, by decide, by decide⟩
  rw [counterAfter_eq, heqn, hM]
  omega

/-- Witness for the amended C9 at m = 3, n = 5. -/
theorem C9_counter_monotone_witness : counterAfter 5 = 5 :=
  (C9_counter_monotone 3 5 (by norm_num) (by norm_num)).2.2.2.1

/-- C10: for every launch configuration (any grid and block size) the field
    kernel writes an element only when the work-item's global index is
    strictly below NREDS — every index written by any launch is below NREDS —
    and a work-item whose index is at or beyond NREDS performs no write at
    all, so no launch decomposition can write outside the buffer's element
    range. -/
theorem C10_kernel_guard (grid blockDim i id : Nat)
    (hmem : i ∈ launchWriteIndices grid blockDim) (hid : NREDS ≤ id) :
    i < NREDS ∧ kernelWriteIndex id = none := by
  constructor
  · rcases List.mem_filterMap.mp hmem with ⟨a, -, ha⟩
    unfold kernelWriteIndex at ha
    split at ha
    · cases ha
      omega
    · cases ha
  · unfold kernelWriteIndex
    rw [if_neg (by omega)]

/-- Witness for C10 with a 1-by-1 launch writing index 0 and the out-of-range
    work-item id NREDS. -/
theorem C10_kernel_guard_witness :
    0 < NREDS ∧ kernelWriteIndex NREDS = none :=
  C10_kernel_guard 1 1 0 NREDS (by decide) (by decide)
